import Mathlib

/-!
Shallow embedding of the l3afd `kf` package (src/kf/bpf.go, src/kf/kf_unix.go):
the BPF program lifecycle engine.  Pure data (programs, instances, processes,
tar entries) is translated to Lean structures; every OS / kernel interaction
(os.Stat, process enumeration, kill, spawn, eBPF map load / delete / resolve)
is an explicit oracle argument, so each Go function becomes a total Lean
function of its inputs and its environment.  The 10-attempt / 1-second retry
loops are modelled as fuel-10 recursions over an attempt-indexed oracle.
-/

namespace L3afd

/-- Outcome of an os.Stat call: success (carrying FileInfo.IsDir), the
IsNotExist error, or any other error (permission denied, I/O error, ...). -/
inductive StatResult
  | found (isDir : Bool)
  | notExist
  | otherError
deriving DecidableEq, Repr

/-- Whether the stat succeeded (err == nil in Go). -/
def isFound : StatResult → Bool
  | .found _ => true
  | _ => false

/-- Whether p is a prefix of s (character lists). -/
def startsWithList : List Char → List Char → Bool
  | _, [] => true
  | [], _ :: _ => false
  | c :: cs, d :: ds => c == d && startsWithList cs ds

/-- Whether sub occurs as a contiguous sublist of s. -/
def containsList : List Char → List Char → Bool
  | [], sub => sub.isEmpty
  | s@(_ :: rest), sub => startsWithList s sub || containsList rest sub

/-- Go strings.Contains: sub occurs as a substring of s (the empty string is
contained in everything). -/
def containsSubstr (s sub : String) : Bool :=
  containsList s.data sub.data

/-- Go s[:15] truncation applied when len(s) > 15 (bpf.go truncates process
and map names to the kernel's 15-byte limit; ASCII here, so byte = char). -/
def truncate15 (s : String) : String :=
  if s.length > 15 then (s.data.take 15).asString else s

/-- Go strings.EqualFold, restricted to ASCII simple folding. -/
def eqFold (a b : String) : Bool :=
  a.data.map Char.toLower == b.data.map Char.toLower

/-- ASCII whitespace, the characters strings.TrimSpace strips here. -/
def isSpaceChar (c : Char) : Bool :=
  c == ' ' || c == '\t' || c == '\n' || c == '\r'

/-- Go strings.TrimSpace restricted to ASCII whitespace. -/
def trimSpace (s : String) : String :=
  (((s.data.dropWhile isSpaceChar).reverse.dropWhile isSpaceChar).reverse).asString

/-- const bpfStatus in bpf.go. -/
def bpfStatus : String := "RUNNING"

/-- models.XDPType. -/
def xdpType : String := "xdp"

/-- models.TCType. -/
def tcType : String := "tc"

/-- models.IngressType. -/
def ingressType : String := "ingress"

/-- models.EgressType. -/
def egressType : String := "egress"

/-- models.StartType. -/
def startType : String := "start"

/-- models.StopType. -/
def stopType : String := "stop"

/-- models.Enabled. -/
def enabledStatus : String := "enabled"

/-- models.L3afDNFArgs: one key/value command-line argument pair. -/
structure L3afDNFArgs where
  key : String
  value : String
deriving DecidableEq, Repr

/-- models.BPFProgram: the immutable configuration record of one network
function (the fields the kf package reads). -/
structure BPFProgram where
  name : String := ""
  version : String := ""
  artifact : String := ""
  mapName : String := ""
  isUserProgram : Bool := false
  cmdStart : String := ""
  cmdStop : String := ""
  cmdStatus : String := ""
  adminStatus : String := ""
  seqID : Nat := 0
  startArgs : List L3afDNFArgs := []
  stopArgs : List L3afDNFArgs := []
  statusArgs : List L3afDNFArgs := []
  mapArgs : List L3afDNFArgs := []
  rulesFile : String := ""
  rules : String := ""
  cmdConfig : String := ""
  configFilePath : String := ""
  eBPFType : String := ""
deriving DecidableEq, Repr

/-- BPFMap (bpf.go): identity of a pinned or enumerated eBPF map.  MapID is
the kernel map ID (uint32 in Go; values here stay far below 2^32). -/
structure BPFMap where
  name : String := ""
  mapID : Nat := 0
deriving DecidableEq, Repr

/-- exec.Cmd as the kf package observes it: the command line plus the
Process field, which is populated only once the child has been spawned. -/
structure Cmd where
  path : String := ""
  args : List String := []
  process : Option Nat := none
deriving DecidableEq, Repr

/-- BPF (bpf.go): runtime record of one program instance.  The Go maps
BpfMaps / MetricsBpfMaps are association lists here; the metrics values
(ring buffers) are never read by the operations modelled, so only the keys
are kept.  Ctx and the Done channel are concurrency plumbing: the Done send
in Stop is modelled as a no-op. -/
structure BPF where
  program : BPFProgram
  cmd : Option Cmd := none
  filePath : String := ""
  restartCount : Nat := 0
  logDir : String := ""
  prevMapName : String := ""
  progID : Nat := 0
  bpfMaps : List (String × BPFMap) := []
  metricsBpfMaps : List String := []
  dataCenter : String := ""
deriving DecidableEq, Repr

/-- config.Config: the configuration fields the kf package consumes. -/
structure Config where
  bpfDir : String := ""
  kfRepoURL : String := ""
  httpClientTimeout : Nat := 0
  bpfChainingEnabled : Bool := false
  xdpRootProgramName : String := ""
  xdpRootProgramArtifact : String := ""
  xdpRootProgramMapName : String := ""
  xdpRootProgramVersion : String := ""
  xdpRootProgramIsUserProgram : Bool := false
  xdpRootProgramCommand : String := ""
  tcRootProgramName : String := ""
  tcRootProgramArtifact : String := ""
  tcRootProgramVersion : String := ""
  tcRootProgramIsUserProgram : Bool := false
  tcRootProgramCommand : String := ""
  tcRootProgramIngressMapName : String := ""
  tcRootProgramEgressMapName : String := ""
deriving DecidableEq, Repr

/-! ## StopExternalRunningProcess (bpf.go lines 159-192) -/

/-- One entry of the go-ps process listing. -/
structure OsProcess where
  pid : Int
  ppid : Int
  executable : String
deriving DecidableEq, Repr

/-- Errors StopExternalRunningProcess can return. -/
inductive SepError
  | emptyName
  | fetchFailed
  | killFailed (pid : Int)
deriving DecidableEq, Repr

/-- Whether StopExternalRunningProcess targets a process: the Go code tests
strings.Contains(process.Executable(), psName) and process.PPid() != myPid. -/
def sepMatches (myPid : Int) (psName : String) (p : OsProcess) : Bool :=
  containsSubstr p.executable psName && p.ppid != myPid

/-- Loop body of StopExternalRunningProcess: walks the process list in order,
killing every match; os.FindProcess never fails on Unix, so only the kill
itself can fail (outcome given by the killOk oracle), and the first kill
error aborts the walk.  Returns the pids kill was sent to, in order. -/
def sepLoop (myPid : Int) (killOk : Int → Bool) (psName : String) :
    List OsProcess → List Int → List Int × Except SepError Unit
  | [], acc => (acc.reverse, .ok ())
  | p :: rest, acc =>
    if sepMatches myPid psName p then
      if killOk p.pid then sepLoop myPid killOk psName rest (p.pid :: acc)
      else ((p.pid :: acc).reverse, .error (.killFailed p.pid))
    else sepLoop myPid killOk psName rest acc

/-- StopExternalRunningProcess: validates the name, truncates it to 15
bytes, enumerates processes (procs = none models a ps.Processes failure)
and kills the matches.  First component: pids kill was sent to. -/
def StopExternalRunningProcess (myPid : Int) (procs : Option (List OsProcess))
    (killOk : Int → Bool) (processName : String) : List Int × Except SepError Unit :=
  if processName.length < 1 then ([], .error .emptyName)
  else
    let psName := truncate15 processName
    match procs with
    | none => ([], .error .fetchFailed)
    | some l => sepLoop myPid killOk psName l []

/-- Modelled from the spec: the kill set the claim asserts, namely the
processes whose executable EQUALS the truncated name (the spec's
"executable equals process_name[:15]") and whose PPID differs. -/
def specKillTargets (myPid : Int) (processName : String) (l : List OsProcess) : List Int :=
  (l.filter (fun p => p.executable == truncate15 processName && p.ppid != myPid)).map OsProcess.pid

/-! ## Errors of the Stop and Start paths

Go distinguishes its failures by distinct fmt.Errorf messages; they are
embedded as structured error values. -/

/-- Errors BPF.Stop can return ("BPFProgram is not running", "process
terminate failed", "no executable permissions", "failed to remove pinned
file", "failed to remove metric map references"). -/
inductive StopError
  | notRunning
  | terminateFailed
  | noExecPerm
  | pinnedLinger
  | metricsLinger
deriving DecidableEq, Repr

/-- Outcome of BPF.Stop: success, a structured error, or a runtime panic
(ProcessTerminate dereferences b.Cmd, which is nil when no child handle is
set on a non-user program). -/
inductive StopOutcome
  | ok
  | err (e : StopError)
  | nilDeref
deriving DecidableEq, Repr

/-- Errors BPF.Start can return. -/
inductive StartError
  | noBinaryPath
  | stopExternalFailed
  | noExecPerm
  | spawnFailed
  | waitFailed
  | pinnedMissing
  | notRunningErr
  | updateFailed
  | progIDFailed
deriving DecidableEq, Repr

/-! ## Retry-loop verifiers (bpf.go lines 828-926)

Each Go loop polls up to 10 times at 1-second intervals; the oracle maps
the attempt index to that attempt's observation. -/

/-- Whether any recorded map still resolves at this attempt: the inner loop
of VerifyMetricsMapsVanish, which calls ebpf.NewMapFromID on every entry of
b.BpfMaps (resolves att id = true models NewMapFromID succeeding). -/
def mapRefExists (resolves : Nat → Nat → Bool) (att : Nat)
    (maps : List (String × BPFMap)) : Bool :=
  maps.any (fun kv => resolves att kv.2.mapID)

/-- Retry loop of VerifyMetricsMapsVanish (bpf.go lines 906-921). -/
def verifyMetricsMapsVanishAux (resolves : Nat → Nat → Bool)
    (maps : List (String × BPFMap)) : Nat → Nat → Except StopError Unit
  | _, 0 => .error .metricsLinger
  | att, fuel + 1 =>
    if mapRefExists resolves att maps then
      verifyMetricsMapsVanishAux resolves maps (att + 1) fuel
    else .ok ()

/-- BPF.VerifyMetricsMapsVanish (bpf.go lines 904-926), applied to the
instance's current BpfMaps entries. -/
def VerifyMetricsMapsVanish (resolves : Nat → Nat → Bool)
    (maps : List (String × BPFMap)) : Except StopError Unit :=
  verifyMetricsMapsVanishAux resolves maps 0 10

/-- Retry loop of VerifyPinnedMapVanish: the attempt succeeds only when
os.Stat reports IsNotExist; any other outcome is logged and retried. -/
def verifyPinnedMapVanishAux (stat : Nat → StatResult) :
    Nat → Nat → Except StopError Unit
  | _, 0 => .error .pinnedLinger
  | att, fuel + 1 =>
    if stat att = .notExist then .ok ()
    else verifyPinnedMapVanishAux stat (att + 1) fuel

/-- BPF.VerifyPinnedMapVanish (bpf.go lines 857-880): skipped unless the
map name is non-empty, the program is XDP and chaining is enabled. -/
def VerifyPinnedMapVanish (stat : Nat → StatResult) (chain : Bool)
    (p : BPFProgram) : Except StopError Unit :=
  if p.mapName.length == 0 || p.eBPFType != xdpType || !chain then .ok ()
  else verifyPinnedMapVanishAux stat 0 10

/-- Retry loop of VerifyPinnedMapExists: the attempt succeeds when os.Stat
returns no error; after 10 failed attempts the final error is surfaced. -/
def verifyPinnedMapExistsAux (stat : Nat → StatResult) :
    Nat → Nat → Except StartError Unit
  | _, 0 => .error .pinnedMissing
  | att, fuel + 1 =>
    if isFound (stat att) then .ok ()
    else verifyPinnedMapExistsAux stat (att + 1) fuel

/-- BPF.VerifyPinnedMapExists (bpf.go lines 828-854): returns nil at once
when chaining is disabled or the map name is empty. -/
def VerifyPinnedMapExists (stat : Nat → StatResult) (chain : Bool)
    (p : BPFProgram) : Except StartError Unit :=
  if !chain then .ok ()
  else if p.mapName.length > 0 then verifyPinnedMapExistsAux stat 0 10
  else .ok ()

/-! ## isRunning (bpf.go lines 437-481) -/

/-- Outcome of reading and scanning /proc/pid/stat in IsProcessRunning
(kf_unix.go lines 135-150). -/
inductive ProcState
  | readFailed
  | scanFailed
  | procState (s : String)
deriving DecidableEq, Repr

/-- Errors the isRunning path can report alongside false. -/
inductive RunError
  | execFailed
  | notRunningOutput
  | noProcessID
  | procReadFailed
  | procScanFailed
  | zombie
deriving DecidableEq, Repr

/-- IsProcessRunning (kf_unix.go lines 135-150): false for read or scan
failures and for a Z (zombie) state, true otherwise. -/
def IsProcessRunning (ps : ProcState) : Bool × Option RunError :=
  match ps with
  | .readFailed => (false, some .procReadFailed)
  | .scanFailed => (false, some .procScanFailed)
  | .procState s => if s = "Z" then (false, some .zombie) else (true, none)

/-- Environment of one isRunning probe: the executable check on cmd_status
(assertExecutable is defined outside src/, modelled from the spec: "assert
the binary path is executable; otherwise fail"), the combined stdout+stderr
the status command produced, whether its Run call succeeded (failures are
only logged), and the /proc state of the child pid. -/
structure StatusEnv where
  execOk : Bool
  output : String
  runOk : Bool
  procState : ProcState

/-- BPF.isRunning (bpf.go lines 437-481).  With cmd_status longer than one
character the status command is executed and its raw captured output is
compared to RUNNING with strings.EqualFold — no trimming.  Otherwise
non-user programs count as running; user programs need a populated process
object (VerifyProcessObject's 10x1s poll awaits a concurrent write of
Cmd.Process; the field is constant in this sequential model, so the poll
reduces to a presence test) and a non-zombie /proc state. -/
def isRunning (env : StatusEnv) (b : BPF) : Bool × Option RunError :=
  if b.program.cmdStatus.length > 1 then
    if !env.execOk then (false, some .execFailed)
    else
      if eqFold env.output bpfStatus then (true, none)
      else (false, some .notRunningOutput)
  else if !b.program.isUserProgram then (true, none)
  else
    match b.cmd with
    | none => (false, some .noProcessID)
    | some c =>
      match c.process with
      | none => (false, some .noProcessID)
      | some _ => IsProcessRunning env.procState

/-- Modelled from the spec: the status predicate the claim asserts for a set
cmd_status, namely TRIM the captured output, then compare case-insensitively
to RUNNING. -/
def specStatusRunning (out : String) : Bool :=
  eqFold (trimSpace out) bpfStatus

/-! ## Stop (bpf.go lines 197-290) -/

/-- Environment of one Stop call: SIGTERM outcome, Cmd.Wait outcome (only
logged), the executable check and Run outcome of cmd_stop (Run failures are
only logged), the per-attempt os.Stat of the pinned map file, and kernel
map-ID resolvability per attempt. -/
structure StopEnv where
  terminateOk : Bool
  waitOk : Bool
  execOk : Bool
  runOk : Bool
  pinnedStat : Nat → StatResult
  resolves : Nat → Nat → Bool

/-- BPF.Stop (bpf.go lines 197-290).  Returns the updated instance and the
outcome.  Faithful points: the not-running guard only fires for user
programs; BpfMaps and MetricsBpfMaps are cleared and ProgID reset BEFORE
any verification runs (so VerifyMetricsMapsVanish always sees the already
cleared list); the Done-channel send for sidecar configs is a no-op here;
with empty cmd_stop, ProcessTerminate dereferences a nil Cmd. -/
def Stop (env : StopEnv) (_ifaceName _direction : String) (chain : Bool)
    (b : BPF) : BPF × StopOutcome :=
  if b.program.isUserProgram && b.cmd.isNone then (b, .err .notRunning)
  else
    let b1 : BPF := { b with bpfMaps := [], metricsBpfMaps := [], progID := 0 }
    if b.program.cmdStop.length < 1 then
      match b1.cmd with
      | none => (b1, .nilDeref)
      | some _ =>
        if !env.terminateOk then (b1, .err .terminateFailed)
        else
          let b2 := { b1 with cmd := none }
          match VerifyPinnedMapVanish env.pinnedStat chain b2.program with
          | .error e => (b2, .err e)
          | .ok _ =>
            match VerifyMetricsMapsVanish env.resolves b2.bpfMaps with
            | .error e => (b2, .err e)
            | .ok _ => (b2, .ok)
    else
      if !env.execOk then (b1, .err .noExecPerm)
      else
        let b2 := { b1 with cmd := none }
        match VerifyPinnedMapVanish env.pinnedStat chain b2.program with
        | .error e => (b2, .err e)
        | .ok _ =>
          match VerifyMetricsMapsVanish env.resolves b2.bpfMaps with
          | .error e => (b2, .err e)
          | .ok _ => (b2, .ok)

/-! ## Start (bpf.go lines 297-415) -/

/-- Environment of one Start call: the supervisor pid, the process listing
and kill oracle consumed by the StopExternalRunningProcess pre-flight, the
executable check on cmd_start, the Cmd.Start spawn outcome and child pid,
the Cmd.Wait outcome for non-user programs, the rules-file write outcome
(write failures silently drop the --rules-file argument), the status-probe
environment, the per-attempt os.Stat of the pinned map, the Update outcome
for map_args, and the per-attempt GetProgID outcome. -/
structure StartEnv where
  myPid : Int
  procs : Option (List OsProcess)
  killOk : Int → Bool
  execOk : Bool
  spawnOk : Bool
  childPid : Nat
  waitOk : Bool
  rulesWriteOk : Bool
  statusEnv : StatusEnv
  pinnedStat : Nat → StatResult
  updateOk : Bool
  progIDAt : Nat → Option Nat

/-- filepath.Join as the kf package uses it (already separator-free parts). -/
def joinPath (a b : String) : String := a ++ "/" ++ b

/-- Argument pairs rendered as --key=value (Start and Stop paths). -/
def argsFromPairs (l : List L3afDNFArgs) : List String :=
  l.map (fun kv => "--" ++ kv.key ++ "=" ++ kv.value)

/-- Argument assembly of BPF.Start (bpf.go lines 319-342), including the
createUpdateRulesFile path whose write outcome decides whether the
--rules-file argument is appended. -/
def startCmdArgs (env : StartEnv) (ifaceName direction : String)
    (chain : Bool) (b : BPF) : List String :=
  let a0 := ["--iface=" ++ ifaceName, "--direction=" ++ direction]
  let a1 := if chain && b.prevMapName.length > 1 then
      a0 ++ ["--map-name=" ++ b.prevMapName] else a0
  let a2 := if b.logDir.length > 1 then a1 ++ ["--log-dir=" ++ b.logDir] else a1
  let a3 := if b.program.rulesFile.length > 1 && b.program.rules.length > 1
      && env.rulesWriteOk then
      a2 ++ ["--rules-file=" ++ b.filePath ++ "/" ++ direction ++ "/" ++ b.program.rulesFile]
    else a2
  a3 ++ argsFromPairs b.program.startArgs

/-- Retry loop fetching the program ID (bpf.go lines 384-392): up to 10
attempts of GetProgID, stopping at the first success. -/
def getProgIDLoop (progIDAt : Nat → Option Nat) : Nat → Nat → Option Nat
  | _, 0 => none
  | att, fuel + 1 =>
    match progIDAt att with
    | some v => some v
    | none => getProgIDLoop progIDAt (att + 1) fuel

/-- BPF.Start (bpf.go lines 297-415).  Returns the updated instance and the
result.  Faithful points: the Cmd field is assigned the freshly built
command BEFORE Cmd.Start runs, and a spawn failure returns without clearing
it; RemovePrevProgFD failures before the spawn are only logged; non-user
programs wait for the child, clear the handle and succeed on the pinned-map
check alone; user programs are probed with isRunning, then the pinned-map
check, then Update (map_args), then the prog-ID fetch; the sidecar config
task, SetPrLimits (failures only logged) and the stats counters have no
bearing on the returned value. -/
def Start (env : StartEnv) (ifaceName direction : String) (chain : Bool)
    (b : BPF) : BPF × Except StartError Unit :=
  if b.filePath = "" then (b, .error .noBinaryPath)
  else
    match (StopExternalRunningProcess env.myPid env.procs env.killOk b.program.cmdStart).2 with
    | .error _ => (b, .error .stopExternalFailed)
    | .ok _ =>
      if !env.execOk then (b, .error .noExecPerm)
      else
        let cmdPath := joinPath b.filePath b.program.cmdStart
        let args := startCmdArgs env ifaceName direction chain b
        let b1 := { b with cmd := some { path := cmdPath, args := args, process := none } }
        if !env.spawnOk then (b1, .error .spawnFailed)
        else
          let b2 := { b1 with
            cmd := some { path := cmdPath, args := args, process := some env.childPid } }
          if !b.program.isUserProgram then
            if !env.waitOk then (b2, .error .waitFailed)
            else
              let b3 := { b2 with cmd := none }
              match VerifyPinnedMapExists env.pinnedStat chain b3.program with
              | .error e => (b3, .error e)
              | .ok _ => (b3, .ok ())
          else
            match isRunning env.statusEnv b2 with
            | (false, _) => (b2, .error .notRunningErr)
            | (true, _) =>
              match VerifyPinnedMapExists env.pinnedStat chain b2.program with
              | .error e => (b2, .error e)
              | .ok _ =>
                if b.program.mapArgs.length > 0 && !env.updateOk then
                  (b2, .error .updateFailed)
                else
                  if b.prevMapName.length > 0 then
                    match getProgIDLoop env.progIDAt 0 10 with
                    | none => (b2, .error .progIDFailed)
                    | some v => ({ b2 with progID := v }, .ok ())
                  else (b2, .ok ())

/-! ## VerifyAndGetArtifacts and GetArtifacts (bpf.go lines 484-581) -/

/-- Characters before the first dot. -/
def takeUntilDot : List Char → List Char
  | [] => []
  | c :: rest => if c == '.' then [] else c :: takeUntilDot rest

/-- strings.Split(artifact, ".")[0]: the stem of the artifact filename. -/
def artifactStem (artifact : String) : String :=
  (takeUntilDot artifact.data).asString

/-- filepath.Join(conf.BPFDir, name, version, stem(artifact)): the cache
directory VerifyAndGetArtifacts probes, and the FilePath GetArtifacts sets
after a successful download. -/
def artifactDirPath (conf : Config) (p : BPFProgram) : String :=
  conf.bpfDir ++ "/" ++ p.name ++ "/" ++ p.version ++ "/" ++ artifactStem p.artifact

/-- BPF.VerifyAndGetArtifacts (bpf.go lines 484-493).  GetArtifacts itself
is network-bound; its outcome is the fetchOutcome oracle, and on success it
sets FilePath to the same stem directory (bpf.go lines 577-578).  Returns
(updated instance, whether GetArtifacts was invoked, error flag). -/
def VerifyAndGetArtifacts (stat : String → StatResult)
    (fetchOutcome : Except Unit Unit) (conf : Config) (b : BPF) :
    BPF × Bool × Except Unit Unit :=
  let fPath := artifactDirPath conf b.program
  if stat fPath = .notExist then
    match fetchOutcome with
    | .error _ => (b, true, .error ())
    | .ok _ => ({ b with filePath := fPath }, true, .ok ())
  else ({ b with filePath := fPath }, false, .ok ())

/-- One parsed tar entry of the artifact archive: header.FileInfo().IsDir()
distinguishes the two shapes (modes and contents do not influence the
modelled control flow). -/
inductive TarEntry
  | dirEntry (name : String)
  | fileEntry (name : String)
deriving DecidableEq, Repr

/-- header.Name of a tar entry. -/
def tarEntryName : TarEntry → String
  | .dirEntry n => n
  | .fileEntry n => n

/-- Errors of the extraction loop of GetArtifacts. -/
inductive TarError
  | dotdotPath (name : String)
  | mkdirFailed (path : String)
  | createFailed (path : String)
deriving DecidableEq, Repr

/-- Extraction loop of GetArtifacts (bpf.go lines 541-575) over the parsed
entries: each entry's path is rejected when it contains "..", directories
are created with MkdirAll and files with OpenFile+CopyBuffer (the io oracle
gives each path's create/copy outcome).  The accumulator records the paths
written so far; an error aborts the loop and leaves them on disk. -/
def extractTarAux (io₁ : String → Bool) (tempDir : String) :
    List TarEntry → List String → List String × Except TarError Unit
  | [], acc => (acc.reverse, .ok ())
  | e :: rest, acc =>
    let nm := tarEntryName e
    if containsSubstr nm ".." then (acc.reverse, .error (.dotdotPath nm))
    else
      let fPath := tempDir ++ "/" ++ nm
      match e with
      | .dirEntry _ =>
        if io₁ fPath then extractTarAux io₁ tempDir rest (fPath :: acc)
        else (acc.reverse, .error (.mkdirFailed fPath))
      | .fileEntry _ =>
        if io₁ fPath then extractTarAux io₁ tempDir rest (fPath :: acc)
        else (acc.reverse, .error (.createFailed fPath))

/-- Tar extraction of GetArtifacts into tempDir =
filepath.Join(conf.BPFDir, name, version): the paths written and the
result. -/
def extractTar (io₁ : String → Bool) (tempDir : String)
    (entries : List TarEntry) : List String × Except TarError Unit :=
  extractTarAux io₁ tempDir entries []

/-! ## RemoveNextProgFD and RemovePrevProgFD (bpf.go lines 792-825) -/

/-- State of one pinned chain map as the remove operations observe it:
whether ebpf.LoadPinnedMap succeeds on its path, and whether key 0 is
present (ebpf Map.Delete fails with ErrKeyNotExist precisely when the key
is absent). -/
structure PinEnv where
  loadOk : Bool
  hasKey0 : Bool
deriving DecidableEq, Repr

/-- Errors of the two remove operations. -/
inductive RmError
  | accessFailed
  | deleteFailed
deriving DecidableEq, Repr

/-- BPF.RemoveNextProgFD (bpf.go lines 792-808): no-op for an empty map
name; otherwise load the pinned map and delete key 0, and a delete failure
IS returned as an error ("failed to delete prog fd entry").  First
component: whether a delete was attempted. -/
def RemoveNextProgFD (env : PinEnv) (b : BPF) : Bool × Except RmError Unit :=
  if b.program.mapName.length == 0 then (false, .ok ())
  else if !env.loadOk then (false, .error .accessFailed)
  else if env.hasKey0 then (true, .ok ())
  else (true, .error .deleteFailed)

/-- BPF.RemovePrevProgFD (bpf.go lines 811-825): loads the pinned map at
PrevMapName and deletes key 0, but a delete failure is only logged ("Some
cases map may be empty ignore it"). -/
def RemovePrevProgFD (env : PinEnv) (_b : BPF) : Bool × Except RmError Unit :=
  if !env.loadOk then (false, .error .accessFailed)
  else (true, .ok ())

/-! ## fileExists and LoadRootProgram (bpf.go lines 80-156, 601-607) -/

/-- fileExists (bpf.go lines 601-607): os.Stat, then early false only for
the IsNotExist error; any OTHER stat error leaves info nil and the final
!info.IsDir() dereferences it — modelled as none (runtime panic). -/
def fileExists : StatResult → Option Bool
  | .notExist => some false
  | .found isDir => some (!isDir)
  | .otherError => none

/-- Result of LoadRootProgram: the loaded instance, an error, or a runtime
panic propagated from fileExists or Stop. -/
inductive LRResult
  | okRes (b : BPF)
  | errRes
  | nilDerefPanic
deriving DecidableEq, Repr

/-- Environment of one LoadRootProgram call. -/
structure LREnv where
  artifactStat : String → StatResult
  fetchOutcome : Except Unit Unit
  mapFileStat : StatResult
  stopEnv : StopEnv
  startEnv : StartEnv

/-- XDP root instance built by LoadRootProgram (bpf.go lines 87-105). -/
def xdpRootInstance (conf : Config) : BPF :=
  { program := {
      name := conf.xdpRootProgramName
      artifact := conf.xdpRootProgramArtifact
      mapName := conf.xdpRootProgramMapName
      version := conf.xdpRootProgramVersion
      isUserProgram := conf.xdpRootProgramIsUserProgram
      cmdStart := conf.xdpRootProgramCommand
      cmdStop := conf.xdpRootProgramCommand
      cmdStatus := ""
      adminStatus := enabledStatus
      seqID := 0 } }

/-- TC root instance built by LoadRootProgram (bpf.go lines 107-128): the
map name is selected by direction, and a direction that is neither ingress
nor egress leaves it empty. -/
def tcRootInstance (conf : Config) (direction : String) : BPF :=
  { program := {
      name := conf.tcRootProgramName
      artifact := conf.tcRootProgramArtifact
      version := conf.tcRootProgramVersion
      isUserProgram := conf.tcRootProgramIsUserProgram
      cmdStart := conf.tcRootProgramCommand
      cmdStop := conf.tcRootProgramCommand
      cmdStatus := ""
      adminStatus := enabledStatus
      mapName := if direction = ingressType then conf.tcRootProgramIngressMapName
        else if direction = egressType then conf.tcRootProgramEgressMapName
        else "" } }

/-- Root-program construction of LoadRootProgram (bpf.go lines 85-131):
XDP roots take the XDP config block; TC roots take the TC block; any other
type is the error branch. -/
def rootProgForType (conf : Config) (direction eBPFTypeStr : String) : Option BPF :=
  if eBPFTypeStr = xdpType then some (xdpRootInstance conf)
  else if eBPFTypeStr = tcType then some (tcRootInstance conf direction)
  else none

/-- Modelled from the spec: models.BPFProgram.AddStartArgs / AddStopArgs
(defined outside src/) append one key/value pair to the respective ordered
argument list; LoadRootProgram appends the default cmd=start / cmd=stop
arguments with them. -/
def addRootDefaultArgs (b : BPF) : BPF :=
  { b with program := { b.program with
      startArgs := b.program.startArgs ++ [{ key := "cmd", value := startType }]
      stopArgs := b.program.stopArgs ++ [{ key := "cmd", value := stopType }] } }

/-- Start tail of LoadRootProgram (bpf.go lines 151-153). -/
def lrStart (env : LREnv) (ifaceName direction : String) (conf : Config)
    (b : BPF) : LRResult :=
  match Start env.startEnv ifaceName direction conf.bpfChainingEnabled b with
  | (b', .ok _) => .okRes b'
  | (_, .error _) => .errRes

/-- LoadRootProgram (bpf.go lines 80-156): build the root instance, add the
default args, VerifyAndGetArtifacts, then probe the root map name with
fileExists (a leftover pinned map means a prior instance is running and is
stopped first), then Start. -/
def LoadRootProgram (env : LREnv) (ifaceName direction eBPFTypeStr : String)
    (conf : Config) : LRResult :=
  match rootProgForType conf direction eBPFTypeStr with
  | none => .errRes
  | some b0 =>
    let b1 := addRootDefaultArgs b0
    match VerifyAndGetArtifacts env.artifactStat env.fetchOutcome conf b1 with
    | (_, _, .error _) => .errRes
    | (b2, _, .ok _) =>
      match fileExists env.mapFileStat with
      | none => .nilDerefPanic
      | some true =>
        match Stop env.stopEnv ifaceName direction conf.bpfChainingEnabled b2 with
        | (b3, .ok) => lrStart env ifaceName direction conf b3
        | (_, .nilDeref) => .nilDerefPanic
        | (_, .err _) => .errRes
      | some false => lrStart env ifaceName direction conf b2

/-! ## Shared helper lemmas -/

/-- Whether the attempt-indexed stat oracle reports success at some attempt
below n (the pinned file was seen within the poll window). -/
def foundWithin (stat : Nat → StatResult) (n : Nat) : Bool :=
  (List.range n).any fun i => isFound (stat i)

/-! ## C1 -/

/-- Recorded metrics map of the C1 failing input. -/
def c1Map : BPFMap := { name := "metrics_map", mapID := 42 }

/-- C1 failing input: a running user-program instance that recorded kernel
map ID 42 in its BpfMaps. -/
def c1Instance : BPF :=
  { program := { name := "ratelimiting", cmdStop := "stop.sh", isUserProgram := true,
                 eBPFType := xdpType, mapName := "" }
    cmd := some { path := "/opt/l3afd/ratelimiting/stop.sh", args := [], process := some 7 }
    bpfMaps := [("metrics_map", c1Map)] }

/-- C1 environment: every command succeeds and the kernel keeps resolving
map ID 42 at every attempt of every retry loop. -/
def c1Env : StopEnv :=
  { terminateOk := true, waitOk := true, execOk := true, runOk := true
    pinnedStat := fun _ => .notExist
    resolves := fun _ mid => mid == 42 }

/-- C1: Stop clears BpfMaps before invoking VerifyMetricsMapsVanish, so the
verification iterates an empty list and Stop returns success even though
the recorded map ID 42 is still resolvable by the kernel at every attempt;
had the check run on the maps recorded before the Stop, it would have
failed with the metrics-linger error. -/
theorem c1_stop_succeeds_with_resolvable_recorded_map :
    (Stop c1Env "eth0" "xdpingress" true c1Instance).2 = StopOutcome.ok
    ∧ (c1Instance.bpfMaps.map fun kv => kv.2.mapID) = [42]
    ∧ c1Env.resolves 0 42 = true
    ∧ c1Env.resolves 9 42 = true
    ∧ VerifyMetricsMapsVanish c1Env.resolves c1Instance.bpfMaps
        = Except.error StopError.metricsLinger :=
  ⟨rfl, rfl, rfl, rfl, rfl⟩

/-! ## C6 -/

/-- C6 counterexample: with a non-empty map_name, a loadable pinned map and
key 0 absent, RemoveNextProgFD attempts the delete and returns the
"failed to delete prog fd entry" error — a missing key IS an error here,
refuting the claimed best-effort tolerance. -/
theorem c6_counterexample_missing_key_is_error :
    RemoveNextProgFD { loadOk := true, hasKey0 := false }
      { program := { mapName := "/sys/fs/bpf/xdp_pass_map" } }
      = (true, Except.error RmError.deleteFailed) := rfl

/-- C6 amended: RemoveNextProgFD is a success without touching any map for
an empty map_name, but returns an error when the key-0 delete fails because
the key is absent; only RemovePrevProgFD tolerates the missing key. -/
theorem c6_amended_remove_prog_fd (env : PinEnv) (bE bK : BPF)
    (h1 : bE.program.mapName = "")
    (h2 : env.loadOk = true)
    (h3 : env.hasKey0 = false)
    (h4 : bK.program.mapName.length ≠ 0) :
    RemoveNextProgFD env bE = (false, Except.ok ())
    ∧ RemoveNextProgFD env bK = (true, Except.error RmError.deleteFailed)
    ∧ RemovePrevProgFD env bK = (true, Except.ok ()) := by
  refine ⟨?_, ?_, ?_⟩
  · simp [RemoveNextProgFD, h1]
  · simp [RemoveNextProgFD, h4, h2, h3]
  · simp [RemovePrevProgFD, h2]

/-- C6 amended witness at a concrete chain map. -/
theorem c6_amended_remove_prog_fd_witness :
    ({ program := { mapName := "" } } : BPF).program.mapName = ""
    ∧ ({ loadOk := true, hasKey0 := false } : PinEnv).loadOk = true
    ∧ ({ loadOk := true, hasKey0 := false } : PinEnv).hasKey0 = false
    ∧ ({ program := { mapName := "/sys/fs/bpf/m" } } : BPF).program.mapName.length ≠ 0
    ∧ (RemoveNextProgFD { loadOk := true, hasKey0 := false }
         { program := { mapName := "" } } = (false, Except.ok ())
       ∧ RemoveNextProgFD { loadOk := true, hasKey0 := false }
           { program := { mapName := "/sys/fs/bpf/m" } }
           = (true, Except.error RmError.deleteFailed)
       ∧ RemovePrevProgFD { loadOk := true, hasKey0 := false }
           { program := { mapName := "/sys/fs/bpf/m" } } = (true, Except.ok ())) :=
  ⟨rfl, rfl, rfl, by decide,
   c6_amended_remove_prog_fd _ _ _ rfl rfl rfl (by decide)⟩

/-! ## C7 -/

/-- C7 counterexample instance: a NON-user program with no child handle and
a configured cmd_stop. -/
def c7Instance : BPF :=
  { program := { name := "xdp-root", isUserProgram := false, cmdStop := "xdp_root",
                 eBPFType := xdpType, mapName := "" }
    cmd := none }

/-- C7 environment: everything succeeds. -/
def c7Env : StopEnv :=
  { terminateOk := true, waitOk := true, execOk := true, runOk := true
    pinnedStat := fun _ => .notExist
    resolves := fun _ _ => false }

/-- C7 counterexample: Stop of an instance whose child handle is absent is
NOT an error when the program is not a user program — the guard requires
IsUserProgram, so this Stop runs the full teardown and succeeds. -/
theorem c7_counterexample_non_user_stop_succeeds :
    c7Instance.cmd = none
    ∧ (Stop c7Env "eth0" "xdpingress" true c7Instance).2 = StopOutcome.ok :=
  ⟨rfl, rfl⟩

/-- C7 amended: Stop of an already-stopped USER-program instance (child
handle absent and is_user_program true) fails with "BPFProgram is not
running" and performs no teardown: the instance is returned unchanged. -/
theorem c7_amended_stop_stopped_user_program (env : StopEnv)
    (ifaceName direction : String) (chain : Bool) (b : BPF)
    (huser : b.program.isUserProgram = true)
    (hcmd : b.cmd = none) :
    Stop env ifaceName direction chain b = (b, StopOutcome.err StopError.notRunning) := by
  simp [Stop, huser, hcmd, Option.isNone]

/-- C7 amended witness: a stopped user program. -/
theorem c7_amended_stop_stopped_user_program_witness :
    ({ program := { name := "foo", isUserProgram := true } } : BPF).program.isUserProgram = true
    ∧ ({ program := { name := "foo", isUserProgram := true } } : BPF).cmd = none
    ∧ Stop c7Env "eth0" "xdpingress" true { program := { name := "foo", isUserProgram := true } }
        = ({ program := { name := "foo", isUserProgram := true } },
           StopOutcome.err StopError.notRunning) :=
  ⟨rfl, rfl, c7_amended_stop_stopped_user_program _ _ _ _ _ rfl rfl⟩

/-! ## C4 -/

/-- C4 instance: a user program with cmd_status configured. -/
def c4Instance : BPF :=
  { program := { name := "foo", cmdStatus := "status.sh", isUserProgram := true } }

/-- C4 environment: the status command runs and prints RUNNING followed by
a newline, as a shell script ending in echo does. -/
def c4Env : StatusEnv :=
  { execOk := true, output := "RUNNING\n", runOk := true, procState := .procState "S" }

/-- C4 counterexample: the trimmed output equals RUNNING case-insensitively
(what the claim says yields true), yet isRunning compares the RAW captured
output with strings.EqualFold and returns false with an error. -/
theorem c4_counterexample_untrimmed_output :
    specStatusRunning c4Env.output = true
    ∧ isRunning c4Env c4Instance = (false, some RunError.notRunningOutput) :=
  ⟨by decide, rfl⟩

/-- C4 amended: with cmd_status set (longer than one character, the code's
test) and executable, isRunning returns true exactly when the RAW captured
output — no trimming — equals RUNNING case-insensitively, and false with an
error otherwise. -/
theorem c4_amended_is_running_raw_output (env : StatusEnv) (b : BPF)
    (hset : b.program.cmdStatus.length > 1)
    (hexec : env.execOk = true) :
    isRunning env b = if eqFold env.output bpfStatus then (true, none)
      else (false, some RunError.notRunningOutput) := by
  simp [isRunning, hset, hexec]

/-- C4 environment of the amended witness: raw lower-case running output. -/
def c4EnvLower : StatusEnv :=
  { execOk := true, output := "running", runOk := true, procState := .procState "S" }

/-- C4 amended witness: an exact raw RUNNING output yields true. -/
theorem c4_amended_is_running_raw_output_witness :
    c4Instance.program.cmdStatus.length > 1
    ∧ c4EnvLower.execOk = true
    ∧ isRunning c4EnvLower c4Instance
        = (if eqFold c4EnvLower.output bpfStatus then (true, none)
           else (false, some RunError.notRunningOutput)) :=
  ⟨by decide, rfl,
   c4_amended_is_running_raw_output c4EnvLower c4Instance (by decide) rfl⟩

/-! ## C8 -/

/-- C8: when the stem directory <bpf_dir>/<name>/<version>/<stem(artifact)>
already exists (os.Stat is anything but IsNotExist), VerifyAndGetArtifacts
sets the instance's FilePath to that directory and returns success without
invoking GetArtifacts — the fetch-called flag is false, so zero network
I/O; by the same equation, the fetch is invoked only in the IsNotExist
branch. -/
theorem c8_ensure_no_fetch_when_cached (stat : String → StatResult)
    (fo : Except Unit Unit) (conf : Config) (b : BPF)
    (h : stat (artifactDirPath conf b.program) ≠ StatResult.notExist) :
    VerifyAndGetArtifacts stat fo conf b
      = ({ b with filePath := artifactDirPath conf b.program }, false, Except.ok ()) := by
  simp [VerifyAndGetArtifacts, h]

/-- C8 configuration of the witness. -/
def c8Conf : Config := { bpfDir := "/var/l3afd" }

/-- C8 instance of the witness. -/
def c8Instance : BPF :=
  { program := { name := "ratelimiting", version := "v1.0", artifact := "ratelimiting.tar.gz" } }

/-- C8 witness: with the cache directory present on disk, ensure returns
its path and never fetches. -/
theorem c8_ensure_no_fetch_when_cached_witness :
    (fun _ => StatResult.found true : String → StatResult)
        (artifactDirPath c8Conf c8Instance.program) ≠ StatResult.notExist
    ∧ VerifyAndGetArtifacts (fun _ => StatResult.found true) (Except.ok ()) c8Conf c8Instance
      = ({ c8Instance with filePath := artifactDirPath c8Conf c8Instance.program },
         false, Except.ok ()) :=
  ⟨by decide, c8_ensure_no_fetch_when_cached _ _ _ _ (by decide)⟩

/-! ## C3 -/

/-- C3 counterexample process: its executable strictly CONTAINS the target
name without being equal to it. -/
def c3Proc : OsProcess := { pid := 5, ppid := 1, executable := "xfoox" }

/-- C3 counterexample: kill_external("foo") sends a kill to the process
whose executable is "xfoox" — strings.Contains, not equality — although
the claimed kill set (executables EQUAL to the truncated name) is empty. -/
theorem c3_counterexample_contains_not_equals :
    (StopExternalRunningProcess 2 (some [c3Proc]) (fun _ => true) "foo").1 = [5]
    ∧ specKillTargets 2 "foo" [c3Proc] = [] :=
  ⟨rfl, rfl⟩

/-- Modelled from the spec (C3 as amended): walk the process list in order;
kill every process whose executable CONTAINS the truncated name and whose
PPID differs from the supervisor's; stop at the first kill error; a walk
with no match performs no kill and succeeds. -/
def specKillExternalLoop (myPid : Int) (killOk : Int → Bool) (psName : String) :
    List OsProcess → List Int × Except SepError Unit
  | [] => ([], .ok ())
  | p :: rest =>
    if containsSubstr p.executable psName && p.ppid != myPid then
      if killOk p.pid then
        (p.pid :: (specKillExternalLoop myPid killOk psName rest).1,
         (specKillExternalLoop myPid killOk psName rest).2)
      else ([p.pid], .error (.killFailed p.pid))
    else specKillExternalLoop myPid killOk psName rest

/-- Accumulator form of the C3 equivalence. -/
theorem sepLoop_eq_specKill (myPid : Int) (killOk : Int → Bool) (psName : String)
    (l : List OsProcess) (acc : List Int) :
    sepLoop myPid killOk psName l acc
      = (acc.reverse ++ (specKillExternalLoop myPid killOk psName l).1,
         (specKillExternalLoop myPid killOk psName l).2) := by
  induction l generalizing acc with
  | nil => simp [sepLoop, specKillExternalLoop]
  | cons p rest ih =>
    by_cases hm : (containsSubstr p.executable psName && p.ppid != myPid) = true
    · by_cases hko : killOk p.pid = true
      · simp [sepLoop, specKillExternalLoop, sepMatches, hm, hko, ih]
      · simp [sepLoop, specKillExternalLoop, sepMatches, hm, hko]
    · simp [sepLoop, specKillExternalLoop, sepMatches, hm, ih]

/-- C3 amended: for a non-empty process name, StopExternalRunningProcess
behaves exactly as the spec loop above — kills, in enumeration order, the
processes whose executable CONTAINS the 15-byte-truncated name and whose
PPID is not the supervisor's own, returning the first kill error, and is a
no-op success when nothing matches. -/
theorem c3_amended_kill_external_contains (myPid : Int) (killOk : Int → Bool)
    (processName : String) (l : List OsProcess)
    (hname : processName.length ≥ 1) :
    StopExternalRunningProcess myPid (some l) killOk processName
      = specKillExternalLoop myPid killOk (truncate15 processName) l := by
  have hlt : ¬ processName.length < 1 := by omega
  simp only [StopExternalRunningProcess, if_neg hlt]
  rw [sepLoop_eq_specKill]
  simp

/-- C3 amended witness: the substring match "xfoox" is killed, the
non-match "bar" is untouched. -/
theorem c3_amended_kill_external_contains_witness :
    ("foo" : String).length ≥ 1
    ∧ StopExternalRunningProcess 2 (some [c3Proc, { pid := 9, ppid := 2, executable := "bar" }])
        (fun _ => true) "foo"
      = specKillExternalLoop 2 (fun _ => true) (truncate15 "foo")
          [c3Proc, { pid := 9, ppid := 2, executable := "bar" }] :=
  ⟨by decide, c3_amended_kill_external_contains 2 (fun _ => true) "foo" _ (by decide)⟩

/-! ## C5 -/

/-- C5 counterexample: an archive whose first entry is clean and whose
second contains "..": GetArtifacts rejects the second entry, naming it,
but the first entry has already been written under bpf_dir. -/
theorem c5_counterexample_earlier_entries_written :
    extractTar (fun _ => true) "/var/l3afd/repo"
        [TarEntry.fileEntry "a.txt", TarEntry.fileEntry "../evil"]
      = (["/var/l3afd/repo/a.txt"], Except.error (TarError.dotdotPath "../evil"))
    ∧ (["/var/l3afd/repo/a.txt"] : List String) ≠ [] :=
  ⟨rfl, by decide⟩

/-- Accumulator form of the C5 extraction property. -/
theorem extractTarAux_stops_at_dotdot (io₁ : String → Bool) (tempDir : String)
    (bad : TarEntry) (post : List TarEntry)
    (hbad : containsSubstr (tarEntryName bad) ".." = true) :
    ∀ (pre : List TarEntry) (acc : List String),
    pre.all (fun e => !containsSubstr (tarEntryName e) ".."
        && io₁ (tempDir ++ "/" ++ tarEntryName e)) = true →
    extractTarAux io₁ tempDir (pre ++ bad :: post) acc
      = (acc.reverse ++ pre.map (fun e => tempDir ++ "/" ++ tarEntryName e),
         Except.error (TarError.dotdotPath (tarEntryName bad))) := by
  intro pre
  induction pre with
  | nil =>
    intro acc _
    simp [extractTarAux, hbad]
  | cons e rest ih =>
    intro acc hall
    simp only [List.all_cons, Bool.and_eq_true, Bool.not_eq_true'] at hall
    obtain ⟨⟨hdot, hio⟩, hrest⟩ := hall
    cases e with
    | dirEntry n =>
      simp only [tarEntryName] at hdot hio
      simp [extractTarAux, tarEntryName, hdot, hio, ih _ hrest]
    | fileEntry n =>
      simp only [tarEntryName] at hdot hio
      simp [extractTarAux, tarEntryName, hdot, hio, ih _ hrest]

/-- C5 amended: fetch fails with an error naming the first offending
filepath that contains "..", and exactly the entries BEFORE the offending
one have been written under bpf_dir — earlier entries are left on disk (for
an archive whose offending entry comes first, that is nothing at all). -/
theorem c5_amended_fetch_rejects_dotdot (io₁ : String → Bool) (tempDir : String)
    (pre post : List TarEntry) (bad : TarEntry)
    (hbad : containsSubstr (tarEntryName bad) ".." = true)
    (hpre : pre.all (fun e => !containsSubstr (tarEntryName e) ".."
        && io₁ (tempDir ++ "/" ++ tarEntryName e)) = true) :
    extractTar io₁ tempDir (pre ++ bad :: post)
      = (pre.map (fun e => tempDir ++ "/" ++ tarEntryName e),
         Except.error (TarError.dotdotPath (tarEntryName bad))) := by
  unfold extractTar
  rw [extractTarAux_stops_at_dotdot io₁ tempDir bad post hbad pre [] hpre]
  simp

/-- C5 amended witness: the spec's own S4 archive, a lone "../evil" entry —
nothing at all is written and the error names the entry. -/
theorem c5_amended_fetch_rejects_dotdot_witness :
    containsSubstr (tarEntryName (TarEntry.fileEntry "../evil")) ".." = true
    ∧ ([] : List TarEntry).all (fun e => !containsSubstr (tarEntryName e) ".."
        && (fun _ => true) ("/var/l3afd/repo" ++ "/" ++ tarEntryName e)) = true
    ∧ extractTar (fun _ => true) "/var/l3afd/repo"
        ([] ++ TarEntry.fileEntry "../evil" :: [])
      = (([] : List TarEntry).map (fun e => "/var/l3afd/repo" ++ "/" ++ tarEntryName e),
         Except.error (TarError.dotdotPath (tarEntryName (TarEntry.fileEntry "../evil")))) :=
  ⟨by decide, by decide,
   c5_amended_fetch_rejects_dotdot (fun _ => true) "/var/l3afd/repo" [] []
     (TarEntry.fileEntry "../evil") (by decide) (by decide)⟩

/-! ## C2 -/

/-- C2 instance: a user program with a pinned map name, no predecessor and
no map_args. -/
def c2Instance : BPF :=
  { program := { name := "ratelimiting", mapName := "/sys/fs/bpf/xdp_rl_ingress_next_prog",
                 isUserProgram := true, cmdStart := "start.sh", cmdStatus := "status.sh",
                 eBPFType := xdpType }
    filePath := "/var/l3afd/ratelimiting/v1.0/ratelimiting" }

/-- C2 environment: every step succeeds while os.Stat NEVER sees the pinned
map file at any attempt. -/
def c2Env : StartEnv :=
  { myPid := 1, procs := some [], killOk := fun _ => true, execOk := true
    spawnOk := true, childPid := 9, waitOk := true, rulesWriteOk := true
    statusEnv := { execOk := true, output := "RUNNING", runOk := true,
                   procState := .procState "S" }
    pinnedStat := fun _ => .notExist
    updateOk := true, progIDAt := fun _ => none }

/-- C2 counterexample: with chaining disabled, Start succeeds on a program
with a non-empty map_name although the pinned map file is missing at every
one of the 10 polls — VerifyPinnedMapExists returns nil at once when chain
is false, and would have reported the missing file had it polled. -/
theorem c2_counterexample_no_chain_skips_check :
    (Start c2Env "eth0" "xdpingress" false c2Instance).2 = Except.ok ()
    ∧ c2Instance.program.mapName.length > 0
    ∧ foundWithin c2Env.pinnedStat 10 = false
    ∧ VerifyPinnedMapExists c2Env.pinnedStat true c2Instance.program
        = Except.error StartError.pinnedMissing :=
  ⟨rfl, by decide, rfl, rfl⟩

/-- Success of the pinned-map poll pinpoints a successful stat attempt. -/
theorem verifyPinnedMapExistsAux_found (stat : Nat → StatResult) :
    ∀ (fuel att : Nat), verifyPinnedMapExistsAux stat att fuel = Except.ok ()
      → ∃ i, att ≤ i ∧ i < att + fuel ∧ isFound (stat i) = true := by
  intro fuel
  induction fuel with
  | zero => intro att h; simp [verifyPinnedMapExistsAux] at h
  | succ n ih =>
    intro att h
    unfold verifyPinnedMapExistsAux at h
    by_cases hf : isFound (stat att) = true
    · exact ⟨att, le_refl _, by omega, hf⟩
    · rw [if_neg hf] at h
      obtain ⟨i, h1, h2, h3⟩ := ih (att + 1) h
      exact ⟨i, by omega, by omega, h3⟩

/-- Every success path of Start with chaining enabled passes through
VerifyPinnedMapExists on the instance's program. -/
theorem start_ok_pinned_verified (env : StartEnv) (ifaceName direction : String)
    (b : BPF) (hok : (Start env ifaceName direction true b).2 = Except.ok ()) :
    VerifyPinnedMapExists env.pinnedStat true b.program = Except.ok () := by
  unfold Start at hok
  by_cases h1 : b.filePath = ""
  · simp [h1] at hok
  rw [if_neg h1] at hok
  cases hsep : (StopExternalRunningProcess env.myPid env.procs env.killOk b.program.cmdStart).2 with
  | error e => rw [hsep] at hok; simp at hok
  | ok u =>
    rw [hsep] at hok
    simp only at hok
    by_cases h2 : env.execOk
    on_goal 2 => simp [h2] at hok
    simp only [h2, Bool.not_true, Bool.false_eq_true, if_false] at hok
    by_cases h3 : env.spawnOk
    on_goal 2 => simp [h3] at hok
    simp only [h3, Bool.not_true, Bool.false_eq_true, if_false] at hok
    by_cases h4 : b.program.isUserProgram
    · simp only [h4, Bool.not_true, Bool.false_eq_true, if_false] at hok
      rcases hir : isRunning env.statusEnv _ with ⟨bb, oe⟩
      rw [hir] at hok
      cases bb
      · simp at hok
      · cases hv : VerifyPinnedMapExists env.pinnedStat true _ with
        | error e => rw [hv] at hok; simp at hok
        | ok uu => cases uu; rfl
    · simp only [h4, Bool.not_false, if_true] at hok
      by_cases h5 : env.waitOk
      on_goal 2 => simp [h5] at hok
      simp only [h5, Bool.not_true, Bool.false_eq_true, if_false] at hok
      cases hv : VerifyPinnedMapExists env.pinnedStat true _ with
      | error e => rw [hv] at hok; simp at hok
      | ok uu => cases uu; rfl

/-- C2 amended: for every Start that returns success with CHAINING ENABLED
on a program with non-empty map_name, some one of the 10 one-second polls
saw the pinned map file on disk — Start fails if the file is still missing
at the deadline. -/
theorem c2_amended_start_pinned_within_deadline (env : StartEnv)
    (ifaceName direction : String) (b : BPF)
    (hok : (Start env ifaceName direction true b).2 = Except.ok ())
    (hmap : b.program.mapName.length > 0) :
    foundWithin env.pinnedStat 10 = true := by
  have hv := start_ok_pinned_verified env ifaceName direction b hok
  unfold VerifyPinnedMapExists at hv
  simp only [Bool.not_true, Bool.false_eq_true, if_false, if_pos hmap] at hv
  obtain ⟨i, _, h10, hf⟩ := verifyPinnedMapExistsAux_found env.pinnedStat 10 0 hv
  unfold foundWithin
  rw [List.any_eq_true]
  exact ⟨i, List.mem_range.mpr (by omega), hf⟩

/-- C2 environment of the witness: the pinned map file appears at once. -/
def c2EnvFound : StartEnv :=
  { c2Env with pinnedStat := fun _ => .found false }

/-- C2 amended witness: a chained Start that succeeds, with the map file
observed within the deadline. -/
theorem c2_amended_start_pinned_within_deadline_witness :
    (Start c2EnvFound "eth0" "xdpingress" true c2Instance).2 = Except.ok ()
    ∧ c2Instance.program.mapName.length > 0
    ∧ foundWithin c2EnvFound.pinnedStat 10 = true :=
  ⟨rfl, by decide,
   c2_amended_start_pinned_within_deadline c2EnvFound "eth0" "xdpingress" c2Instance
     rfl (by decide)⟩

/-! ## C9 -/

/-- The pinned-vanish poll only ever fails with the pinned-linger error. -/
theorem verifyPinnedMapVanishAux_error_eq (stat : Nat → StatResult) :
    ∀ (fuel att : Nat) (e : StopError),
      verifyPinnedMapVanishAux stat att fuel = Except.error e
      → e = StopError.pinnedLinger := by
  intro fuel
  induction fuel with
  | zero =>
    intro att e h
    unfold verifyPinnedMapVanishAux at h
    simp at h
    exact h.symm
  | succ n ih =>
    intro att e h
    unfold verifyPinnedMapVanishAux at h
    by_cases hs : stat att = StatResult.notExist
    · rw [if_pos hs] at h; simp at h
    · rw [if_neg hs] at h; exact ih _ _ h

/-- VerifyPinnedMapVanish only ever fails with the pinned-linger error. -/
theorem verifyPinnedMapVanish_error_eq (stat : Nat → StatResult) (chain : Bool)
    (p : BPFProgram) (e : StopError)
    (h : VerifyPinnedMapVanish stat chain p = Except.error e) :
    e = StopError.pinnedLinger := by
  unfold VerifyPinnedMapVanish at h
  split at h
  · simp at h
  · exact verifyPinnedMapVanishAux_error_eq stat 10 0 e h

/-- The metrics-vanish poll only ever fails with the metrics-linger error. -/
theorem verifyMetricsMapsVanishAux_error_eq (resolves : Nat → Nat → Bool)
    (maps : List (String × BPFMap)) :
    ∀ (fuel att : Nat) (e : StopError),
      verifyMetricsMapsVanishAux resolves maps att fuel = Except.error e
      → e = StopError.metricsLinger := by
  intro fuel
  induction fuel with
  | zero =>
    intro att e h
    unfold verifyMetricsMapsVanishAux at h
    simp at h
    exact h.symm
  | succ n ih =>
    intro att e h
    unfold verifyMetricsMapsVanishAux at h
    by_cases hm : mapRefExists resolves att maps = true
    · rw [if_pos hm] at h; exact ih _ _ h
    · rw [if_neg hm] at h; simp at h

/-- VerifyMetricsMapsVanish only ever fails with the metrics-linger error. -/
theorem verifyMetricsMapsVanish_error_eq (resolves : Nat → Nat → Bool)
    (maps : List (String × BPFMap)) (e : StopError)
    (h : VerifyMetricsMapsVanish resolves maps = Except.error e) :
    e = StopError.metricsLinger := by
  exact verifyMetricsMapsVanishAux_error_eq resolves maps 10 0 e h

/-- A Stop on an instance whose child handle is present never reports
"BPFProgram is not running", whatever else happens. -/
theorem stop_no_not_running_when_cmd_present (env : StopEnv)
    (ifaceName direction : String) (chain : Bool) (b : BPF)
    (hcmd : b.cmd.isSome = true) :
    (Stop env ifaceName direction chain b).2 ≠ StopOutcome.err StopError.notRunning := by
  obtain ⟨prog, bcmd, fp, rc, ld, pmn, pid, maps, mmaps, dc⟩ := b
  dsimp only at hcmd
  obtain ⟨c, hc⟩ := Option.isSome_iff_exists.mp hcmd
  subst hc
  unfold Stop
  dsimp only
  simp only [Option.isNone_some, Bool.and_false, Bool.false_eq_true, if_false]
  by_cases hlen : prog.cmdStop.length < 1
  · rw [if_pos hlen]
    by_cases ht : env.terminateOk
    · simp only [ht, Bool.not_true, Bool.false_eq_true, if_false]
      cases hv : VerifyPinnedMapVanish env.pinnedStat chain prog with
      | error e =>
        have he := verifyPinnedMapVanish_error_eq _ _ _ _ hv
        simp [hv, he]
      | ok u =>
        cases hm : VerifyMetricsMapsVanish env.resolves [] with
        | error e =>
          have he := verifyMetricsMapsVanish_error_eq _ _ _ hm
          simp [hv, hm, he]
        | ok u2 => simp [hv, hm]
    · simp only [ht, Bool.not_false, if_true]
      simp
  · rw [if_neg hlen]
    by_cases hx : env.execOk
    · simp only [hx, Bool.not_true, Bool.false_eq_true, if_false]
      cases hv : VerifyPinnedMapVanish env.pinnedStat chain prog with
      | error e =>
        have he := verifyPinnedMapVanish_error_eq _ _ _ _ hv
        simp [hv, he]
      | ok u =>
        cases hm : VerifyMetricsMapsVanish env.resolves [] with
        | error e =>
          have he := verifyMetricsMapsVanish_error_eq _ _ _ hm
          simp [hv, hm, he]
        | ok u2 => simp [hv, hm]
    · simp only [hx, Bool.not_false, if_true]
      simp

/-- C9: Start is not atomic on spawn failure — when Cmd.Start fails, Start
returns the spawn error but leaves the instance's Cmd set to the freshly
built (never-started) command object, so a subsequent Stop on the user
program never reports "BPFProgram is not running". -/
theorem c9_spawn_failure_not_atomic (env : StartEnv) (senv : StopEnv)
    (ifaceName direction ifaceName2 direction2 : String) (chain chain2 : Bool)
    (b : BPF)
    (hfp : b.filePath ≠ "")
    (hsep : (StopExternalRunningProcess env.myPid env.procs env.killOk
        b.program.cmdStart).2 = Except.ok ())
    (hexec : env.execOk = true)
    (hspawn : env.spawnOk = false)
    (_huser : b.program.isUserProgram = true) :
    (Start env ifaceName direction chain b).2 = Except.error StartError.spawnFailed
    ∧ ((Start env ifaceName direction chain b).1).cmd.isSome = true
    ∧ (Stop senv ifaceName2 direction2 chain2 (Start env ifaceName direction chain b).1).2
        ≠ StopOutcome.err StopError.notRunning := by
  have hstart : Start env ifaceName direction chain b
      = ({ b with cmd := some { path := joinPath b.filePath b.program.cmdStart,
                                args := startCmdArgs env ifaceName direction chain b,
                                process := none } },
         Except.error StartError.spawnFailed) := by
    unfold Start
    rw [if_neg hfp, hsep]
    simp [hexec, hspawn]
  refine ⟨by rw [hstart], by rw [hstart]; rfl, ?_⟩
  apply stop_no_not_running_when_cmd_present
  rw [hstart]
  rfl

/-- C9 instance of the witness. -/
def c9Instance : BPF :=
  { program := { name := "connlimit", cmdStart := "start.sh", isUserProgram := true }
    filePath := "/var/l3afd/connlimit/v1.0/connlimit" }

/-- C9 environment of the witness: the spawn fails, everything before it
succeeds. -/
def c9Env : StartEnv :=
  { myPid := 1, procs := some [], killOk := fun _ => true, execOk := true
    spawnOk := false, childPid := 9, waitOk := true, rulesWriteOk := true
    statusEnv := { execOk := true, output := "RUNNING", runOk := true,
                   procState := .procState "S" }
    pinnedStat := fun _ => .notExist
    updateOk := true, progIDAt := fun _ => none }

/-- C9 Stop environment of the witness. -/
def c9StopEnv : StopEnv :=
  { terminateOk := true, waitOk := true, execOk := true, runOk := true
    pinnedStat := fun _ => .notExist, resolves := fun _ _ => false }

/-- C9 witness at the concrete failing spawn. -/
theorem c9_spawn_failure_not_atomic_witness :
    c9Instance.filePath ≠ ""
    ∧ (StopExternalRunningProcess c9Env.myPid c9Env.procs c9Env.killOk
        c9Instance.program.cmdStart).2 = Except.ok ()
    ∧ c9Env.execOk = true
    ∧ c9Env.spawnOk = false
    ∧ c9Instance.program.isUserProgram = true
    ∧ ((Start c9Env "eth0" "xdpingress" true c9Instance).2
          = Except.error StartError.spawnFailed
       ∧ ((Start c9Env "eth0" "xdpingress" true c9Instance).1).cmd.isSome = true
       ∧ (Stop c9StopEnv "eth0" "xdpingress" true
            (Start c9Env "eth0" "xdpingress" true c9Instance).1).2
           ≠ StopOutcome.err StopError.notRunning) :=
  ⟨by decide, rfl, rfl, rfl, rfl,
   c9_spawn_failure_not_atomic c9Env c9StopEnv "eth0" "xdpingress" "eth0" "xdpingress"
     true true c9Instance (by decide) rfl rfl rfl rfl⟩

/-! ## C10 -/

/-- C10: fileExists is not total — an os.Stat outcome that is an error
other than IsNotExist leaves the FileInfo nil and the IsDir dereference
panics (none) — and LoadRootProgram invokes it on the root program's
map_name right after a successful artifact check, so such a stat outcome
makes the whole root load panic instead of returning an error. -/
theorem c10_file_exists_stat_error_panics (env : LREnv)
    (ifaceName direction : String) (conf : Config)
    (hfetch : env.fetchOutcome = Except.ok ())
    (hstat : env.mapFileStat = StatResult.otherError) :
    fileExists env.mapFileStat = none
    ∧ LoadRootProgram env ifaceName direction xdpType conf = LRResult.nilDerefPanic := by
  have h1 : fileExists env.mapFileStat = none := by rw [hstat]; rfl
  refine ⟨h1, ?_⟩
  have hroot : rootProgForType conf direction xdpType = some (xdpRootInstance conf) := by
    simp [rootProgForType]
  unfold LoadRootProgram
  rw [hroot]
  dsimp only
  unfold VerifyAndGetArtifacts
  rw [hfetch]
  dsimp only
  by_cases hs : env.artifactStat
      (artifactDirPath conf (addRootDefaultArgs (xdpRootInstance conf)).program)
      = StatResult.notExist
  · rw [if_pos hs]
    simp [h1]
  · rw [if_neg hs]
    simp [h1]

/-- C10 configuration of the witness. -/
def c10Conf : Config :=
  { bpfDir := "/var/l3afd", xdpRootProgramName := "xdp-root",
    xdpRootProgramArtifact := "xdp-root.tar.gz",
    xdpRootProgramMapName := "/sys/fs/bpf/xdp_root_pass_array",
    xdpRootProgramVersion := "v1.0", xdpRootProgramIsUserProgram := false,
    xdpRootProgramCommand := "xdp_root" }

/-- C10 environment of the witness: the artifact cache exists, but
os.Stat on the root map path fails with a non-IsNotExist error. -/
def c10Env : LREnv :=
  { artifactStat := fun _ => .found true
    fetchOutcome := .ok ()
    mapFileStat := .otherError
    stopEnv := c9StopEnv
    startEnv := c9Env }

/-- C10 witness: the permission-style stat failure panics the root load. -/
theorem c10_file_exists_stat_error_panics_witness :
    c10Env.fetchOutcome = Except.ok ()
    ∧ c10Env.mapFileStat = StatResult.otherError
    ∧ (fileExists c10Env.mapFileStat = none
       ∧ LoadRootProgram c10Env "eth0" "xdpingress" xdpType c10Conf
           = LRResult.nilDerefPanic) :=
  ⟨rfl, rfl, c10_file_exists_stat_error_panics c10Env "eth0" "xdpingress" c10Conf rfl rfl⟩

end L3afd
